import Mathlib

/-!
Verification development for the AnkiTool repository (src/anki_interactive.py,
src/app.py): a console tool and a small Flask web API bridging the
AnkiConnect HTTP add-on with LLM text-generation providers.

Shallow embedding conventions:
* Python `str` is modelled as `List Char` (`PyStr`) where character-level
  operations matter (indexing, `len`, `replace`), and as `String` where the
  string is only moved around.
* Python `dict` is modelled as an association list `List (String × α)`;
  `d[k] = v` replaces the binding in place when the key exists and appends
  otherwise, matching CPython's insertion-order semantics.
* JSON values are the inductive `Json`; Python truthiness of a JSON value
  (`if params:`, `if result.get("error"):`) is `Json.truthy`.
* A Python function that may raise is modelled in `Except String α` (the
  error message as the payload), or `Except Json α` where the code attaches
  a JSON value to the exception.  External collaborators (the AnkiConnect
  HTTP service, the LLM providers, `requests`) are oracles passed in as
  function arguments.
-/

/-- Python `str`, one `Char` per Python character. -/
abbrev PyStr := List Char

/-- JSON values, as produced by `json.loads` / sent by `requests.post(json=...)`. -/
inductive Json where
  | null
  | bool (b : Bool)
  | num (n : Int)
  | str (s : String)
  | arr (elems : List Json)
  | obj (entries : List (String × Json))

/-- Python truthiness of a JSON-shaped value: `None`, `False`, `0`, `""`,
`[]` and `{}` are falsy, everything else is truthy. -/
def Json.truthy : Json → Bool
  | .null => false
  | .bool b => b
  | .num n => n != 0
  | .str s => s != ""
  | .arr es => !es.isEmpty
  | .obj es => !es.isEmpty

/-- `d.get(k)` on a Python dict modelled as an association list. -/
def dictGet? (d : List (String × α)) (k : String) : Option α :=
  (d.find? (fun p => p.1 == k)).map (·.2)

/-- `k in d` on a Python dict. -/
def dictHas (d : List (String × α)) (k : String) : Bool :=
  (dictGet? d k).isSome

/-- `d[k] = v` on a Python dict: replace the binding in place if the key
exists (dict keys are unique, so replacing the first occurrence suffices),
append otherwise. -/
def dictSet (d : List (String × α)) (k : String) (v : α) : List (String × α) :=
  match d with
  | [] => [(k, v)]
  | p :: rest => if p.1 == k then (k, v) :: rest else p :: dictSet rest k v

/-- `d.get(k, default)`. -/
def dictGetD (d : List (String × α)) (k : String) (v : α) : α :=
  (dictGet? d k).getD v

/-!
## `LLMClient.generate_note` post-processing (anki_interactive.py lines 148–166)

The provider call (`_generate_openai` / `_generate_gemini` / `_generate_custom`)
is an external oracle; `generate_note` is modelled as the post-processing the
method applies to the provider's parsed JSON result, a `Dict[str, str]`
modelled as `List (String × PyStr)`.
-/

/-- `pattern.replace(" ", "")`: remove every space character. -/
def removeSpaces (s : PyStr) : PyStr :=
  s.filter (fun c => c != ' ')

/-- The repaired placeholder for a word longer than two characters
(anki_interactive.py lines 160–162): `word[0] + "_" * (len(word) - 2) + word[-1]`.
`word[0]` is the singleton `word.take 1`, `word[-1]` the singleton
`word.drop (word.length - 1)`. -/
def repairedSuggest (word : PyStr) : PyStr :=
  word.take 1 ++ List.replicate (word.length - 2) '_' ++ word.drop (word.length - 1)

/-- "Ensure the Word field matches input" (anki_interactive.py lines 150–152):
`if "Word" in result and result["Word"] != word: result["Word"] = word`. -/
def fixWordField (word : PyStr) (result : List (String × PyStr)) :
    List (String × PyStr) :=
  if dictHas result "Word" && (dictGetD result "Word" [] != word) then
    dictSet result "Word" word
  else result

/-- "Validate suggest pattern" (anki_interactive.py lines 154–164): if the
pattern's length with spaces removed differs from the word's length, replace
it; the replacement keeps first and last letter only when `len(word) > 2`,
otherwise it is the word itself. -/
def fixSuggestField (word : PyStr) (result : List (String × PyStr)) :
    List (String × PyStr) :=
  if dictHas result "suggest" then
    let pattern := dictGetD result "suggest" []
    if (removeSpaces pattern).length != word.length then
      if word.length > 2 then
        dictSet result "suggest" (repairedSuggest word)
      else
        dictSet result "suggest" word
    else result
  else result

/-- `LLMClient.generate_note` (anki_interactive.py lines 112–166), with the
LLM provider's parsed result supplied as the oracle argument `result`.
The prompt construction does not affect the returned dictionary and is
omitted; the returned value is exactly the validation/repair pass applied
to `result` for the "THPTQG form" model. -/
def generate_note (word : PyStr) (model_name : String)
    (result : List (String × PyStr)) : List (String × PyStr) :=
  if model_name == "THPTQG form" && dictHas result "suggest" then
    fixSuggestField word (fixWordField word result)
  else result

/-! ### Association-list (Python dict) lemmas -/

theorem dictGet?_dictSet_self (d : List (String × α)) (k : String) (v : α) :
    dictGet? (dictSet d k v) k = some v := by
  induction d with
  | nil => simp [dictSet, dictGet?, List.find?]
  | cons p d ih =>
    by_cases hp : p.1 = k
    · simp [dictSet, dictGet?, List.find?, hp]
    · have hp' : (p.1 == k) = false := by simp [hp]
      simpa [dictSet, dictGet?, List.find?, hp'] using ih

theorem dictGet?_dictSet_ne (d : List (String × α)) (k k' : String) (v : α)
    (h : k' ≠ k) : dictGet? (dictSet d k v) k' = dictGet? d k' := by
  have hkk : (k == k') = false := by simp [Ne.symm h]
  induction d with
  | nil => simp [dictSet, dictGet?, List.find?, hkk]
  | cons p d ih =>
    by_cases hp : p.1 = k
    · have hpk : (p.1 == k') = false := by simp [hp, Ne.symm h]
      have hpk2 : (p.1 == k) = true := by simp [hp]
      simp [dictSet, dictGet?, List.find?, hpk, hpk2, hkk, hp]
    · have hpk2 : (p.1 == k) = false := by simp [hp]
      by_cases hp' : p.1 = k'
      · have hpk : (p.1 == k') = true := by simp [hp']
        simp [dictSet, dictGet?, List.find?, hpk, hpk2]
      · have hpk : (p.1 == k') = false := by simp [hp']
        simpa [dictSet, dictGet?, List.find?, hpk, hpk2] using ih

theorem dictHas_dictSet (d : List (String × α)) (k k' : String) (v : α) :
    dictHas (dictSet d k v) k' = (k' == k || dictHas d k') := by
  by_cases h : k' = k
  · simp [dictHas, h, dictGet?_dictSet_self]
  · have : (k' == k) = false := by simp [h]
    simp [dictHas, this, dictGet?_dictSet_ne d k k' v h]

/-! ### Field-fix lemmas for `generate_note` -/

theorem fixWordField_get_suggest (word : PyStr) (r : List (String × PyStr)) :
    dictGet? (fixWordField word r) "suggest" = dictGet? r "suggest" := by
  unfold fixWordField
  split
  · exact dictGet?_dictSet_ne r "Word" "suggest" word (by decide)
  · rfl

theorem fixWordField_get_word (word : PyStr) (r : List (String × PyStr))
    (h : dictHas r "Word" = true) :
    dictGet? (fixWordField word r) "Word" = some word := by
  have h' : (dictGet? r "Word").isSome := h
  obtain ⟨v, hv⟩ := Option.isSome_iff_exists.mp h'
  unfold fixWordField
  by_cases hne : v = word
  · have hc : (dictHas r "Word" && (dictGetD r "Word" [] != word)) = false := by
      simp [dictGetD, hv, hne]
    simp [hc, hv, hne]
  · have hc : (dictHas r "Word" && (dictGetD r "Word" [] != word)) = true := by
      simp [h, dictGetD, hv, hne]
    simp [hc, dictGet?_dictSet_self]

theorem fixSuggestField_get_word (word : PyStr) (r : List (String × PyStr)) :
    dictGet? (fixSuggestField word r) "Word" = dictGet? r "Word" := by
  unfold fixSuggestField
  by_cases h1 : dictHas r "suggest" = true
  · simp only [h1, if_true]
    by_cases h2 : ((removeSpaces (dictGetD r "suggest" [])).length != word.length) = true
    · by_cases h3 : word.length > 2
      · simp [h2, h3, dictGet?_dictSet_ne r "suggest" "Word" (repairedSuggest word) (by decide)]
      · simp [h2, h3, dictGet?_dictSet_ne r "suggest" "Word" word (by decide)]
    · simp [h2]
  · simp [h1]

theorem fixSuggestField_spec (word : PyStr) (r : List (String × PyStr))
    (p : PyStr) (hp : dictGet? r "suggest" = some p) :
    dictGet? (fixSuggestField word r) "suggest" =
      some (if (removeSpaces p).length ≠ word.length then
              (if 2 < word.length then repairedSuggest word else word)
            else p) := by
  have hhas : dictHas r "suggest" = true := by simp [dictHas, hp]
  have hpd : dictGetD r "suggest" [] = p := by simp [dictGetD, hp]
  unfold fixSuggestField
  simp only [hhas, if_true, hpd]
  by_cases hlen : (removeSpaces p).length = word.length
  · simp [hlen, hp]
  · have hbne : ((removeSpaces p).length != word.length) = true := by simp [hlen]
    by_cases hw : 2 < word.length
    · simp [hbne, hw, hlen, dictGet?_dictSet_self]
    · simp [hbne, hw, hlen, dictGet?_dictSet_self]

theorem repairedSuggest_length (word : PyStr) (h : 2 < word.length) :
    (repairedSuggest word).length = word.length := by
  simp [repairedSuggest]
  omega

/-! ### Claim C1 -/

/-- C1 (amended): for every input word, whenever `generate_note` is called
with model_name "THPTQG form" and the LLM result dictionary contains a
"suggest" key, the "suggest" value of the returned dictionary is a string
whose length after removing spaces, or whose full length, equals the length
of the input word.  (The full-length guarantee of the original claim holds
only when the repair fires; a kept pattern may contain extra spaces.) -/
theorem generate_note_suggest_length (word : PyStr) (result : List (String × PyStr))
    (hs : dictHas result "suggest" = true) :
    ∃ s, dictGet? (generate_note word "THPTQG form" result) "suggest" = some s ∧
      ((removeSpaces s).length = word.length ∨ s.length = word.length) := by
  have h' : (dictGet? result "suggest").isSome := hs
  obtain ⟨p, hp⟩ := Option.isSome_iff_exists.mp h'
  unfold generate_note
  have hcond : (("THPTQG form" : String) == "THPTQG form" && dictHas result "suggest") = true := by
    simp [hs]
  simp only [hcond, if_true]
  have hp1 : dictGet? (fixWordField word result) "suggest" = some p := by
    rw [fixWordField_get_suggest]; exact hp
  rw [fixSuggestField_spec word _ p hp1]
  refine ⟨_, rfl, ?_⟩
  by_cases hlen : (removeSpaces p).length = word.length
  · rw [if_neg (fun hne => hne hlen)]
    exact Or.inl hlen
  · rw [if_pos hlen]
    by_cases hw : 2 < word.length
    · rw [if_pos hw]
      exact Or.inr (repairedSuggest_length word hw)
    · rw [if_neg hw]
      exact Or.inr rfl

/-- Witness for C1 (amended), at word `"ab"` and LLM result `{"suggest": "a b"}`. -/
theorem generate_note_suggest_length_witness :
    ∃ s, dictGet? (generate_note "ab".data "THPTQG form" [("suggest", "a b".data)]) "suggest" = some s ∧
      ((removeSpaces s).length = ("ab".data : PyStr).length ∨ s.length = ("ab".data : PyStr).length) :=
  generate_note_suggest_length "ab".data [("suggest", "a b".data)] (by decide)

/-- C1 counterexample: at word `"ab"` with LLM result `{"suggest": "a b"}`
(non-space length 2 matches, so the pattern is kept), the returned "suggest"
value has length 3, not the word's length 2. -/
theorem generate_note_suggest_length_counterexample :
    ∃ s, dictGet? (generate_note "ab".data "THPTQG form" [("suggest", "a b".data)]) "suggest" = some s
      ∧ s.length ≠ ("ab".data : PyStr).length :=
  ⟨"a b".data, by decide⟩

/-! ### Claim C3 -/

/-- C3 (amended): for every input word and generated "suggest" pattern (with
model_name "THPTQG form"), if the pattern's length after removing spaces does
not equal the word's length, `generate_note` replaces the "suggest" value:
with the word's first character, interior underscores (word length minus two)
and the word's last character when the word is longer than two characters,
and with the word itself otherwise. -/
theorem generate_note_repair_rule (word : PyStr) (result : List (String × PyStr)) (p : PyStr)
    (hp : dictGet? result "suggest" = some p)
    (hlen : (removeSpaces p).length ≠ word.length) :
    dictGet? (generate_note word "THPTQG form" result) "suggest" =
      some (if 2 < word.length then repairedSuggest word else word) := by
  have hs : dictHas result "suggest" = true := by simp [dictHas, hp]
  unfold generate_note
  have hcond : (("THPTQG form" : String) == "THPTQG form" && dictHas result "suggest") = true := by
    simp [hs]
  simp only [hcond, if_true]
  have hp1 : dictGet? (fixWordField word result) "suggest" = some p := by
    rw [fixWordField_get_suggest]; exact hp
  rw [fixSuggestField_spec word _ p hp1, if_pos hlen]

/-- Witness for C3 (amended), at word `"hello"` and pattern `"xx"`. -/
theorem generate_note_repair_rule_witness :
    dictGet? (generate_note "hello".data "THPTQG form" [("suggest", "xx".data)]) "suggest" =
      some (if 2 < ("hello".data : PyStr).length then repairedSuggest "hello".data else "hello".data) :=
  generate_note_repair_rule "hello".data [("suggest", "xx".data)] "xx".data (by decide) (by decide)

/-- C3 counterexample: at word `"a"` with pattern `"xy"` (non-space length 2 ≠
word length 1), the code returns "suggest" = `"a"`, while the claimed
first-char + underscores + last-char formula gives `"aa"`. -/
theorem generate_note_repair_rule_counterexample :
    (removeSpaces "xy".data).length ≠ ("a".data : PyStr).length ∧
    dictGet? (generate_note "a".data "THPTQG form" [("suggest", "xy".data)]) "suggest" = some "a".data ∧
    "a".data ≠ repairedSuggest "a".data := by decide

/-! ### Claim C10 -/

/-- C10: for every input word, whenever `generate_note` is called with
model_name "THPTQG form" and the LLM result dictionary contains both a
"suggest" key and a "Word" key, the "Word" value of the returned dictionary
equals the input word, overriding whatever the LLM produced. -/
theorem generate_note_word_override (word : PyStr) (result : List (String × PyStr))
    (hs : dictHas result "suggest" = true) (hw : dictHas result "Word" = true) :
    dictGet? (generate_note word "THPTQG form" result) "Word" = some word := by
  unfold generate_note
  have hcond : (("THPTQG form" : String) == "THPTQG form" && dictHas result "suggest") = true := by
    simp [hs]
  simp only [hcond, if_true]
  rw [fixSuggestField_get_word, fixWordField_get_word word _ hw]

/-- Witness for C10, at word `"hello"` and LLM result
`{"suggest": "xx", "Word": "helo"}`. -/
theorem generate_note_word_override_witness :
    dictGet? (generate_note "hello".data "THPTQG form"
      [("suggest", "xx".data), ("Word", "helo".data)]) "Word" = some "hello".data :=
  generate_note_word_override "hello".data [("suggest", "xx".data), ("Word", "helo".data)]
    (by decide) (by decide)

/-!
## `AnkiConnectClient` (anki_interactive.py lines 43–87)
-/

/-- `self.version` set in `AnkiConnectClient.__init__`. -/
def ankiConnectVersion : Int := 6

/-- The JSON body `_invoke` posts (anki_interactive.py lines 49–54): start
from `{action, version}` and add `params` only when `if params:` is truthy
(a non-`None`, non-empty dict). -/
def invoke_payload (action : String) (params : Option (List (String × Json))) :
    List (String × Json) :=
  let payload : List (String × Json) :=
    [("action", Json.str action), ("version", Json.num ankiConnectVersion)]
  match params with
  | none => payload
  | some p => if (Json.obj p).truthy then payload ++ [("params", Json.obj p)] else payload

/-- `_invoke`'s handling of the parsed response (anki_interactive.py lines
59–63): raise when `result.get("error")` is truthy (the raised exception's
message embeds the error value, modelled by carrying the error value itself),
otherwise return `result.get("result")` (`None` when absent). -/
def invoke_response (resp : List (String × Json)) : Except Json Json :=
  if ((dictGet? resp "error").getD Json.null).truthy then
    Except.error ((dictGet? resp "error").getD Json.null)
  else
    Except.ok ((dictGet? resp "result").getD Json.null)

/-! ### Claim C5 -/

/-- C5 (amended): `_invoke` posts a JSON body `{action, version, params}`
with version 6 when the params dictionary is non-empty, and `{action,
version}` (no `params` key) when params is absent or empty; if the
response's "error" field is truthy it raises an exception carrying that
error, and otherwise it returns the response's "result" field (null when
absent).  (The original "non-null" raise condition is weakened by the code
to Python truthiness, and an empty params dict is omitted from the body.) -/
theorem invoke_contract (action : String) (p : List (String × Json)) (hp : p ≠ [])
    (resp respOk : List (String × Json)) (e : Json)
    (he : dictGet? resp "error" = some e) (htruthy : e.truthy = true)
    (hok : ((dictGet? respOk "error").getD Json.null).truthy = false) :
    invoke_payload action (some p) =
        [("action", Json.str action), ("version", Json.num ankiConnectVersion),
         ("params", Json.obj p)]
    ∧ invoke_payload action none =
        [("action", Json.str action), ("version", Json.num ankiConnectVersion)]
    ∧ invoke_payload action (some []) =
        [("action", Json.str action), ("version", Json.num ankiConnectVersion)]
    ∧ invoke_response resp = Except.error e
    ∧ invoke_response respOk = Except.ok ((dictGet? respOk "result").getD Json.null) := by
  refine ⟨?_, rfl, rfl, ?_, ?_⟩
  · have ht : (Json.obj p).truthy = true := by
      simp [Json.truthy, List.isEmpty_iff, hp]
    simp [invoke_payload, ht]
  · unfold invoke_response
    rw [he]
    simp [htruthy]
  · unfold invoke_response
    rw [if_neg (by simp [hok])]

/-- Witness for C5 (amended), at action `"addNotes"`, params
`{"notes": []}`, an error response `{"error": "boom"}` and a success
response `{"result": 7}`. -/
theorem invoke_contract_witness :
    invoke_payload "addNotes" (some [("notes", Json.arr [])]) =
        [("action", Json.str "addNotes"), ("version", Json.num ankiConnectVersion),
         ("params", Json.obj [("notes", Json.arr [])])]
    ∧ invoke_payload "addNotes" none =
        [("action", Json.str "addNotes"), ("version", Json.num ankiConnectVersion)]
    ∧ invoke_payload "addNotes" (some []) =
        [("action", Json.str "addNotes"), ("version", Json.num ankiConnectVersion)]
    ∧ invoke_response [("error", Json.str "boom")] = Except.error (Json.str "boom")
    ∧ invoke_response [("result", Json.num 7)] =
        Except.ok ((dictGet? [("result", Json.num 7)] "result").getD Json.null) :=
  invoke_contract "addNotes" [("notes", Json.arr [])] (by simp)
    [("error", Json.str "boom")] [("result", Json.num 7)] (Json.str "boom")
    rfl rfl rfl

/-- C5 counterexample: with an empty params dict the posted body has no
"params" key at all, and a response whose "error" field is the non-null but
falsy `""` is not raised — `_invoke` returns the "result" field instead. -/
theorem invoke_contract_counterexample :
    dictHas (invoke_payload "deckNames" (some [])) "params" = false
    ∧ invoke_response [("error", Json.str ""), ("result", Json.num 42)] =
        Except.ok (Json.num 42) :=
  ⟨rfl, rfl⟩

/-! ### Claim C4 -/

/-- The methods `AnkiConnectClient` defines (anki_interactive.py lines
43–87), each paired with the AnkiConnect action string it passes to
`_invoke`.  This is the complete method table of the class (besides
`__init__` and `_invoke` itself). -/
def ankiConnectClientMethods : List (String × String) :=
  [("get_deck_names", "deckNames"),
   ("create_deck", "createDeck"),
   ("get_model_field_names", "modelFieldNames"),
   ("get_model_names", "modelNames"),
   ("can_add_notes", "canAddNotes"),
   ("add_notes", "addNotes"),
   ("find_notes", "findNotes"),
   ("notes_info", "notesInfo")]

/-- The connector method the web endpoint `/api/delete_notes` invokes:
`anki_client.delete_notes(note_ids)` (app.py line 673). -/
def delete_notes_endpoint_method : String := "delete_notes"

/-- The connector method the web endpoint `/api/update_note` invokes:
`anki_client.update_note(note_update)` (app.py line 704). -/
def update_note_endpoint_method : String := "update_note"

/-- C4 (code bug): the connector methods the note-delete and note-update web
endpoints invoke (`delete_notes`, `update_note`) are not among the methods
`AnkiConnectClient` defines, so those endpoints fail with an AttributeError
(surfaced as a 500 error) instead of performing the flashcard-application
action. -/
theorem ankiConnectClient_missing_update_delete :
    ankiConnectClientMethods.any
        (fun m => m.1 == delete_notes_endpoint_method) = false
    ∧ ankiConnectClientMethods.any
        (fun m => m.1 == update_note_endpoint_method) = false := by
  decide

/-!
## Notes and the web batch endpoints (app.py)
-/

/-- A note dict as built by the front ends: `{deckName, modelName, fields,
tags}` plus the optional `options` dict (`{"allowDuplicate": True}`). -/
structure PyNote where
  deckName : String
  modelName : String
  fields : List (String × PyStr)
  tags : List String
  options : Option (List (String × Json))

/-- Python truthiness of an AnkiConnect note id (`None` or an int). -/
def noteIdTruthy : Option Int → Bool
  | none => false
  | some n => n != 0

/-- The note dict `batch_generate` builds for a word (app.py lines 379–384). -/
def batch_note (deck model language : String)
    (fields : List (String × PyStr)) : PyNote :=
  { deckName := deck, modelName := model, fields := fields,
    tags := [language.toLower, "llm-generated", "batch-import", "web-ui"],
    options := none }

/-- One entry of the `results` array `batch_generate` returns. -/
structure GenResult where
  word : PyStr
  success : Bool
  note_id : Option Int
  fields : List (String × PyStr)
  is_duplicate : Bool
  note : Option PyNote
  error : Option String

/-- One iteration of `batch_generate`'s word loop (app.py lines 367–434).
`prevFields` models the CPython scoping quirk in the `except` block: `if
"fields" in locals()` sees the `fields` variable assigned by a *previous*
iteration, so an LLM failure attaches the previous word's fields to the
error entry when they exist.  Returns the appended result entry and the
`fields` binding left in scope. -/
def batch_generate_step
    (genFields : PyStr → Except String (List (String × PyStr)))
    (canAdd : PyNote → Except String Bool)
    (addNote : PyNote → Except String (Option Int))
    (deck model language : String)
    (prevFields : Option (List (String × PyStr))) (word : PyStr) :
    GenResult × Option (List (String × PyStr)) :=
  match genFields word with
  | .error e =>
      let fields_data := (prevFields.getD [])
      ({ word := word, success := false, note_id := none,
         fields := if fields_data.isEmpty then [("Error", e.data)] else fields_data,
         is_duplicate := false, note := none, error := some e }, prevFields)
  | .ok fields =>
      let note := batch_note deck model language fields
      match canAdd note with
      | .error e =>
          ({ word := word, success := false, note_id := none,
             fields := if fields.isEmpty then [("Error", e.data)] else fields,
             is_duplicate := false, note := none, error := some e }, some fields)
      | .ok true =>
          match addNote note with
          | .error e =>
              ({ word := word, success := false, note_id := none,
                 fields := if fields.isEmpty then [("Error", e.data)] else fields,
                 is_duplicate := false, note := none, error := some e }, some fields)
          | .ok id? =>
              ({ word := word, success := noteIdTruthy id?, note_id := id?,
                 fields := fields, is_duplicate := false, note := some note,
                 error := if noteIdTruthy id? then none
                          else some "Failed to add note to Anki" }, some fields)
      | .ok false =>
          ({ word := word, success := false, note_id := none, fields := fields,
             is_duplicate := true, note := some note,
             error := some "Duplicate card detected" }, some fields)

/-- The `for word in words` loop of `batch_generate`, threading the `fields`
local through iterations. -/
def batch_generate_loop
    (genFields : PyStr → Except String (List (String × PyStr)))
    (canAdd : PyNote → Except String Bool)
    (addNote : PyNote → Except String (Option Int))
    (deck model language : String) :
    Option (List (String × PyStr)) → List PyStr → List GenResult
  | _, [] => []
  | prev, w :: ws =>
      let r := batch_generate_step genFields canAdd addNote deck model language prev w
      r.1 :: batch_generate_loop genFields canAdd addNote deck model language r.2 ws

/-- `/api/batch_generate` (app.py lines 323–449): the `results` array built
for the input `words`, with the LLM client, `can_add_notes` and `add_notes`
as oracles. -/
def batch_generate
    (genFields : PyStr → Except String (List (String × PyStr)))
    (canAdd : PyNote → Except String Bool)
    (addNote : PyNote → Except String (Option Int))
    (deck model language : String) (words : List PyStr) : List GenResult :=
  batch_generate_loop genFields canAdd addNote deck model language none words

/-- The `summary` object `batch_generate` returns (app.py lines 436–445):
`total = len(results)`, `successful = sum(1 for r in results if r["success"])`,
`failed = total - successful`. -/
def batch_generate_summary (results : List GenResult) : Nat × Nat × Nat :=
  (results.length, (results.filter (fun r => r.success)).length,
   results.length - (results.filter (fun r => r.success)).length)

/-- One entry of `data.get('notes', [])` in `batch_add_selected`:
`{word, note, force_duplicate}`. -/
structure AddSelectedItem where
  word : PyStr
  note : PyNote
  force_duplicate : Bool

/-- One entry of the `results` array `batch_add_selected` returns. -/
structure AddResult where
  word : PyStr
  success : Bool
  note_id : Option Int
  error : Option String

/-- One iteration of `batch_add_selected`'s loop (app.py lines 558–579). -/
def batch_add_selected_step (addNote : PyNote → Except String (Option Int))
    (item : AddSelectedItem) : AddResult :=
  let note := if item.force_duplicate then
                { item.note with options := some [("allowDuplicate", Json.bool true)] }
              else item.note
  match addNote note with
  | .error e =>
      { word := item.word, success := false, note_id := none, error := some e }
  | .ok id? =>
      { word := item.word, success := noteIdTruthy id?, note_id := id?,
        error := if noteIdTruthy id? then none else some "Failed to add" }

/-- `/api/batch_add_selected` (app.py lines 547–594): the `results` array. -/
def batch_add_selected (addNote : PyNote → Except String (Option Int))
    (items : List AddSelectedItem) : List AddResult :=
  items.map (batch_add_selected_step addNote)

/-- The `summary` object `batch_add_selected` returns (app.py lines 581–590). -/
def batch_add_selected_summary (results : List AddResult) : Nat × Nat × Nat :=
  (results.length, (results.filter (fun r => r.success)).length,
   results.length - (results.filter (fun r => r.success)).length)

theorem batch_generate_loop_length (genFields canAdd addNote : _) (deck model language : String)
    (prev : Option (List (String × PyStr))) (words : List PyStr) :
    (batch_generate_loop genFields canAdd addNote deck model language prev words).length
      = words.length := by
  induction words generalizing prev with
  | nil => rfl
  | cons w ws ih => simp [batch_generate_loop, ih]

/-- C2: the batch note-generation endpoint produces exactly one result entry
per input word and returns a summary in which `total` equals the number of
input words and `successful + failed = total`; the batch add-selected
endpoint satisfies the same property over its list of input notes.
(Summaries are `(total, successful, failed)`.) -/
theorem batch_counts_sum_to_input
    (genFields : PyStr → Except String (List (String × PyStr)))
    (canAdd : PyNote → Except String Bool)
    (addNote addNote2 : PyNote → Except String (Option Int))
    (deck model language : String) (words : List PyStr)
    (items : List AddSelectedItem) :
    (batch_generate genFields canAdd addNote deck model language words).length = words.length
    ∧ (batch_generate_summary (batch_generate genFields canAdd addNote deck model language words)).1
        = words.length
    ∧ (batch_generate_summary (batch_generate genFields canAdd addNote deck model language words)).2.1
      + (batch_generate_summary (batch_generate genFields canAdd addNote deck model language words)).2.2
        = (batch_generate_summary (batch_generate genFields canAdd addNote deck model language words)).1
    ∧ (batch_add_selected addNote2 items).length = items.length
    ∧ (batch_add_selected_summary (batch_add_selected addNote2 items)).1 = items.length
    ∧ (batch_add_selected_summary (batch_add_selected addNote2 items)).2.1
      + (batch_add_selected_summary (batch_add_selected addNote2 items)).2.2
        = (batch_add_selected_summary (batch_add_selected addNote2 items)).1 := by
  have h1 : (batch_generate genFields canAdd addNote deck model language words).length = words.length :=
    batch_generate_loop_length genFields canAdd addNote deck model language none words
  have h2 : (batch_add_selected addNote2 items).length = items.length := by
    simp [batch_add_selected]
  refine ⟨h1, h1, ?_, h2, h2, ?_⟩
  · have := List.length_filter_le (fun r => r.success)
      (batch_generate genFields canAdd addNote deck model language words)
    simp only [batch_generate_summary]
    omega
  · have := List.length_filter_le (fun r => r.success) (batch_add_selected addNote2 items)
    simp only [batch_add_selected_summary]
    omega

def GenResult.core (r : GenResult) :
    PyStr × Bool × Option Int × Bool × Option String :=
  (r.word, r.success, r.note_id, r.is_duplicate, r.error)

theorem batch_generate_step_core_independent
    (genFields : PyStr → Except String (List (String × PyStr)))
    (canAdd : PyNote → Except String Bool)
    (addNote : PyNote → Except String (Option Int))
    (deck model language : String)
    (prev : Option (List (String × PyStr))) (w : PyStr) :
    (batch_generate_step genFields canAdd addNote deck model language prev w).1.core
      = (batch_generate_step genFields canAdd addNote deck model language none w).1.core := by
  unfold batch_generate_step
  cases genFields w with
  | error e => rfl
  | ok fields =>
    cases canAdd (batch_note deck model language fields) with
    | error e => rfl
    | ok b =>
      cases b with
      | true => cases addNote (batch_note deck model language fields) <;> rfl
      | false => rfl

theorem batch_generate_loop_core
    (genFields : PyStr → Except String (List (String × PyStr)))
    (canAdd : PyNote → Except String Bool)
    (addNote : PyNote → Except String (Option Int))
    (deck model language : String)
    (prev : Option (List (String × PyStr))) (words : List PyStr) :
    (batch_generate_loop genFields canAdd addNote deck model language prev words).map GenResult.core
      = words.map (fun w =>
          (batch_generate_step genFields canAdd addNote deck model language none w).1.core) := by
  induction words generalizing prev with
  | nil => rfl
  | cons w ws ih =>
    simp only [batch_generate_loop, List.map_cons]
    rw [batch_generate_step_core_independent, ih]

/-- Console batch import: note built at anki_interactive.py lines 328–333. -/
def batch_import_note (deck model language : String)
    (fields : List (String × PyStr)) : PyNote :=
  { deckName := deck, modelName := model, fields := fields,
    tags := [language.toLower, "llm-generated", "batch-import"],
    options := none }

/-- One iteration of `batch_import_from_file`'s word loop
(anki_interactive.py lines 318–346): `true` iff the word counts as
successful; any exception and a falsy note id count as failed. -/
def batch_import_step
    (genFields : PyStr → Except String (List (String × PyStr)))
    (addNote : PyNote → Except String (Option Int))
    (deck model language : String) (word : PyStr) : Bool :=
  match genFields word with
  | .error _ => false
  | .ok fields =>
      match addNote (batch_import_note deck model language fields) with
      | .error _ => false
      | .ok id? => noteIdTruthy id?

/-- The successful/failed counters of `batch_import_from_file`. -/
def batch_import_loop
    (genFields : PyStr → Except String (List (String × PyStr)))
    (addNote : PyNote → Except String (Option Int))
    (deck model language : String) :
    Nat → Nat → List PyStr → Nat × Nat
  | successful, failed, [] => (successful, failed)
  | successful, failed, w :: ws =>
      if batch_import_step genFields addNote deck model language w then
        batch_import_loop genFields addNote deck model language (successful + 1) failed ws
      else
        batch_import_loop genFields addNote deck model language successful (failed + 1) ws

/-- `batch_import_from_file` (anki_interactive.py lines 291–348), reduced to
the counters it reports; file reading and model-field lookup happen before
the loop and are not part of the per-word processing. -/
def batch_import_from_file
    (genFields : PyStr → Except String (List (String × PyStr)))
    (addNote : PyNote → Except String (Option Int))
    (deck model language : String) (words : List PyStr) : Nat × Nat :=
  batch_import_loop genFields addNote deck model language 0 0 words

theorem batch_import_loop_spec
    (genFields : PyStr → Except String (List (String × PyStr)))
    (addNote : PyNote → Except String (Option Int))
    (deck model language : String) (s f : Nat) (words : List PyStr) :
    batch_import_loop genFields addNote deck model language s f words
      = (s + (words.filter
              (batch_import_step genFields addNote deck model language)).length,
         f + (words.filter (fun w =>
              !(batch_import_step genFields addNote deck model language w))).length) := by
  induction words generalizing s f with
  | nil => simp [batch_import_loop]
  | cons w ws ih =>
    by_cases hw : batch_import_step genFields addNote deck model language w = true
    · simp [batch_import_loop, hw, List.filter, ih]
      omega
    · simp only [Bool.not_eq_true] at hw
      simp [batch_import_loop, hw, List.filter, ih]
      omega

theorem length_filter_add_length_filter_not (p : α → Bool) (l : List α) :
    (l.filter p).length + (l.filter (fun a => !p a)).length = l.length := by
  induction l with
  | nil => rfl
  | cons a l ih =>
    by_cases ha : p a = true
    · simp [List.filter, ha]; omega
    · simp only [Bool.not_eq_true] at ha
      simp [List.filter, ha]; omega

/-- C7: in the batch loops (web `batch_generate` and console
`batch_import_from_file`), a failure while generating or adding the note for
word i — the LLM call, the duplicate pre-check or the add call raising —
yields an error result entry for that word (success false, error set), and
every position j of the result is the processing of word j alone, so words
after i are still processed; the console loop likewise sorts every word into
exactly one of the successful/failed counters, which sum to the input
length. -/
theorem batch_per_item_continuation
    (genFields : PyStr → Except String (List (String × PyStr)))
    (canAdd : PyNote → Except String Bool)
    (addNote addNoteC : PyNote → Except String (Option Int))
    (deck model language : String)
    (words : List PyStr) (i : Nat) (h : i < words.length) (e : String)
    (hfail : genFields (words[i]) = .error e
      ∨ (∃ f, genFields (words[i]) = .ok f
           ∧ canAdd (batch_note deck model language f) = .error e)
      ∨ (∃ f, genFields (words[i]) = .ok f
           ∧ canAdd (batch_note deck model language f) = .ok true
           ∧ addNote (batch_note deck model language f) = .error e)) :
    (batch_generate genFields canAdd addNote deck model language words).length = words.length
    ∧ ((batch_generate genFields canAdd addNote deck model language words)[i]?).map GenResult.core
        = some (words[i], false, none, false, some e)
    ∧ (∀ j : Nat, ((batch_generate genFields canAdd addNote deck model language words)[j]?).map GenResult.core
        = (words[j]?).map (fun w =>
            (batch_generate_step genFields canAdd addNote deck model language none w).1.core))
    ∧ batch_import_from_file genFields addNoteC deck model language words
        = ((words.filter (batch_import_step genFields addNoteC deck model language)).length,
           (words.filter (fun w =>
             !(batch_import_step genFields addNoteC deck model language w))).length)
    ∧ (batch_import_from_file genFields addNoteC deck model language words).1
      + (batch_import_from_file genFields addNoteC deck model language words).2
        = words.length := by
  have hmap := batch_generate_loop_core genFields canAdd addNote deck model language none words
  have hcont : ∀ j : Nat, ((batch_generate genFields canAdd addNote deck model language words)[j]?).map GenResult.core
      = (words[j]?).map (fun w =>
          (batch_generate_step genFields canAdd addNote deck model language none w).1.core) := by
    intro j
    have := congrArg (fun l : List (PyStr × Bool × Option Int × Bool × Option String) => l[j]?) hmap
    simpa [List.getElem?_map, batch_generate] using this
  have hspec := batch_import_loop_spec genFields addNoteC deck model language 0 0 words
  refine ⟨batch_generate_loop_length genFields canAdd addNote deck model language none words,
          ?_, hcont, by simpa [batch_import_from_file] using hspec, ?_⟩
  · rw [hcont i]
    have hw : words[i]? = some (words[i]) := List.getElem?_eq_getElem h
    rw [hw]
    have hstep : (batch_generate_step genFields canAdd addNote deck model language none
        (words[i])).1.core = (words[i], false, none, false, some e) := by
      rcases hfail with hf | ⟨f, hf, hca⟩ | ⟨f, hf, hca, han⟩
      · simp [batch_generate_step, hf, GenResult.core]
      · simp [batch_generate_step, hf, hca, GenResult.core]
      · simp [batch_generate_step, hf, hca, han, GenResult.core]
    simp [hstep]
  · rw [show batch_import_from_file genFields addNoteC deck model language words
        = batch_import_loop genFields addNoteC deck model language 0 0 words from rfl, hspec]
    have := length_filter_add_length_filter_not
      (batch_import_step genFields addNoteC deck model language) words
    simp only []
    omega

/-- Witness for C7: a single word whose LLM generation always fails. -/
theorem batch_per_item_continuation_witness :
    (batch_generate (fun _ => Except.error "boom") (fun _ => Except.ok true)
        (fun _ => Except.ok (some 1)) "d" "m" "L" ["a".data]).length
      = (["a".data] : List PyStr).length
    ∧ ((batch_generate (fun _ => Except.error "boom") (fun _ => Except.ok true)
        (fun _ => Except.ok (some 1)) "d" "m" "L" ["a".data])[0]?).map GenResult.core
      = some ("a".data, false, none, false, some "boom")
    ∧ (∀ j : Nat, ((batch_generate (fun _ => Except.error "boom") (fun _ => Except.ok true)
        (fun _ => Except.ok (some 1)) "d" "m" "L" ["a".data])[j]?).map GenResult.core
      = ((["a".data] : List PyStr)[j]?).map (fun w =>
          (batch_generate_step (fun _ => Except.error "boom") (fun _ => Except.ok true)
            (fun _ => Except.ok (some 1)) "d" "m" "L" none w).1.core))
    ∧ batch_import_from_file (fun _ => Except.error "boom") (fun _ => Except.ok (some 1))
        "d" "m" "L" ["a".data]
      = (((["a".data] : List PyStr).filter (batch_import_step (fun _ => Except.error "boom")
            (fun _ => Except.ok (some 1)) "d" "m" "L")).length,
         ((["a".data] : List PyStr).filter (fun w => !(batch_import_step (fun _ => Except.error "boom")
            (fun _ => Except.ok (some 1)) "d" "m" "L" w))).length)
    ∧ (batch_import_from_file (fun _ => Except.error "boom") (fun _ => Except.ok (some 1))
        "d" "m" "L" ["a".data]).1
      + (batch_import_from_file (fun _ => Except.error "boom") (fun _ => Except.ok (some 1))
        "d" "m" "L" ["a".data]).2
      = (["a".data] : List PyStr).length :=
  batch_per_item_continuation (fun _ => Except.error "boom") (fun _ => Except.ok true)
    (fun _ => Except.ok (some 1)) (fun _ => Except.ok (some 1)) "d" "m" "L"
    ["a".data] 0 (by decide) "boom" (Or.inl rfl)

/-!
## `/api/add_note` (app.py lines 189–225)
-/

/-- Python truthiness of `'options' in note and note['options']`. -/
def noteOptionsTruthy (n : PyNote) : Bool :=
  match n.options with
  | some o => !o.isEmpty
  | none => false

/-- The duplicate pre-check of `/api/add_note` (app.py lines 198–207):
when the note has no truthy `options`, ask `can_add_notes`; when it reports
the note cannot be added, set `options = {allowDuplicate: True}`. -/
def add_note_prepare (canAdd : PyNote → Except String Bool) (note : PyNote) :
    Except String PyNote :=
  if noteOptionsTruthy note then Except.ok note
  else
    match canAdd note with
    | .error e => .error e
    | .ok true => .ok note
    | .ok false => .ok { note with options := some [("allowDuplicate", Json.bool true)] }

/-- The response `/api/add_note` builds from the submitted note's id
(app.py lines 210–225). -/
def add_note_finish (id? : Option Int) : Nat × Json :=
  match id? with
  | some id =>
      if id != 0 then
        (200, Json.obj [("status", Json.str "success"),
                        ("message", Json.str ("Note added successfully with ID: " ++ toString id)),
                        ("note_id", Json.num id)])
      else
        (400, Json.obj [("status", Json.str "error"),
                        ("message", Json.str "Failed to add note")])
  | none =>
      (400, Json.obj [("status", Json.str "error"),
                      ("message", Json.str "Failed to add note")])

/-- `/api/add_note` (app.py lines 189–225), with `can_add_notes` and
`add_notes` as oracles. -/
def add_note_endpoint (canAdd : PyNote → Except String Bool)
    (addNote : PyNote → Except String (Option Int)) (note : PyNote) : Nat × Json :=
  match add_note_prepare canAdd note with
  | .error e => (500, Json.obj [("error", Json.str e)])
  | .ok submitted =>
      match addNote submitted with
      | .error e => (500, Json.obj [("error", Json.str e)])
      | .ok id? => add_note_finish id?

/-- C9: for every note submitted to `/api/add_note` with no (or an empty)
options dict, if the duplicate pre-check reports the note cannot be added,
the handler sets `options = {allowDuplicate: true}` and still submits the
note — the endpoint's outcome is whatever `add_notes` returns for the
duplicate-allowing note. -/
theorem add_note_duplicate_fallback (canAdd : PyNote → Except String Bool)
    (addNote : PyNote → Except String (Option Int)) (note : PyNote)
    (hopt : note.options = none ∨ note.options = some [])
    (hca : canAdd note = .ok false) :
    add_note_prepare canAdd note
      = .ok { note with options := some [("allowDuplicate", Json.bool true)] }
    ∧ add_note_endpoint canAdd addNote note
      = (match addNote { note with options := some [("allowDuplicate", Json.bool true)] } with
         | .error e => (500, Json.obj [("error", Json.str e)])
         | .ok id? => add_note_finish id?) := by
  have htruthy : noteOptionsTruthy note = false := by
    rcases hopt with h | h <;> simp [noteOptionsTruthy, h]
  have hprep : add_note_prepare canAdd note
      = .ok { note with options := some [("allowDuplicate", Json.bool true)] } := by
    unfold add_note_prepare
    rw [htruthy, if_neg (by simp), hca]
  refine ⟨hprep, ?_⟩
  unfold add_note_endpoint
  rw [hprep]

/-- Witness for C9: a concrete note without options, a pre-check that
refuses it, and an `add_notes` that assigns id 5. -/
theorem add_note_duplicate_fallback_witness :
    add_note_prepare (fun _ => Except.ok false)
        { deckName := "D", modelName := "M", fields := [("Front", "q".data)],
          tags := [], options := none }
      = .ok { deckName := "D", modelName := "M", fields := [("Front", "q".data)],
              tags := [], options := some [("allowDuplicate", Json.bool true)] }
    ∧ add_note_endpoint (fun _ => Except.ok false) (fun _ => Except.ok (some 5))
        { deckName := "D", modelName := "M", fields := [("Front", "q".data)],
          tags := [], options := none }
      = add_note_finish (some 5) :=
  add_note_duplicate_fallback (fun _ => Except.ok false) (fun _ => Except.ok (some 5))
    { deckName := "D", modelName := "M", fields := [("Front", "q".data)],
      tags := [], options := none }
    (Or.inl rfl) rfl

/-!
## Boundary error handling (app.py handlers, anki_interactive.py main loop)
-/

/-- JSON for a `Dict[str, str]` of note fields. -/
def fieldsToJson (fs : List (String × PyStr)) : Json :=
  Json.obj (fs.map (fun p => (p.1, Json.str (String.mk p.2))))

/-- JSON for a note dict. -/
def noteToJson (n : PyNote) : Json :=
  Json.obj ([("deckName", Json.str n.deckName), ("modelName", Json.str n.modelName),
             ("fields", fieldsToJson n.fields),
             ("tags", Json.arr (n.tags.map Json.str))]
    ++ (match n.options with
        | some o => [("options", Json.obj o)]
        | none => []))

/-- `/api/test_connection` (app.py lines 29–37): the whole body runs inside
`try/except`; `get_deck_names` is the oracle. -/
def test_connection (getDeckNames : Except String (List String)) : Nat × Json :=
  match getDeckNames with
  | .ok _ => (200, Json.obj [("status", Json.str "connected"),
                             ("message", Json.str "Successfully connected to Anki")])
  | .error e => (500, Json.obj [("status", Json.str "error"), ("message", Json.str e)])

/-- The body of `/api/generate_note` (app.py lines 119–184): field lookup,
LLM generation and the duplicate pre-check in sequence, each fallible. -/
def generate_note_endpoint_body
    (fieldNames : Except String (List String))
    (genFields : List String → Except String (List (String × PyStr)))
    (canAdd : PyNote → Except String Bool)
    (deck model language : String) : Except String Json := do
  let fns ← fieldNames
  let fields ← genFields fns
  let note : PyNote := { deckName := deck, modelName := model, fields := fields,
                         tags := [language.toLower, "llm-generated", "web-ui"],
                         options := none }
  let ca ← canAdd note
  pure (Json.obj [("status", Json.str "success"), ("fields", fieldsToJson fields),
                  ("can_add", Json.bool ca), ("note", noteToJson note)])

/-- `/api/generate_note` (app.py lines 117–187): the `try/except` wrapper
around the body. -/
def generate_note_endpoint
    (fieldNames : Except String (List String))
    (genFields : List String → Except String (List (String × PyStr)))
    (canAdd : PyNote → Except String Bool)
    (deck model language : String) : Nat × Json :=
  match generate_note_endpoint_body fieldNames genFields canAdd deck model language with
  | .ok j => (200, j)
  | .error e => (500, Json.obj [("error", Json.str e)])

/-- One iteration of the console menu loop (anki_interactive.py lines
386–942): the chosen action's dispatch runs inside `try/except` (lines
408–942) and an exception is printed as `\nError: {e}` (the returned
string) instead of propagating; `none` means no error output. -/
def menu_iteration (dispatch : Except String Unit) : Option String :=
  match dispatch with
  | .ok _ => none
  | .error e => some ("\nError: " ++ e)

/-- C6: exceptions raised while handling a request are caught at the
endpoint boundary and surfaced as a JSON body carrying the error message
with an error HTTP status (500) — shown for the embedded handlers
`test_connection`, `generate_note_endpoint` and `add_note_endpoint` — and
an exception raised by a dispatched action of the console menu loop is
caught and printed as an error message. -/
theorem boundary_error_handling
    (e : String)
    (fieldNames : Except String (List String))
    (genFields : List String → Except String (List (String × PyStr)))
    (canAdd canAdd2 : PyNote → Except String Bool)
    (addNote2 : PyNote → Except String (Option Int))
    (deck model language : String) (note : PyNote)
    (hbody : generate_note_endpoint_body fieldNames genFields canAdd
               deck model language = .error e)
    (hopt : noteOptionsTruthy note = false)
    (hca : canAdd2 note = .error e) :
    test_connection (Except.error e)
      = (500, Json.obj [("status", Json.str "error"), ("message", Json.str e)])
    ∧ generate_note_endpoint fieldNames genFields canAdd deck model language
      = (500, Json.obj [("error", Json.str e)])
    ∧ add_note_endpoint canAdd2 addNote2 note
      = (500, Json.obj [("error", Json.str e)])
    ∧ menu_iteration (Except.error e) = some ("\nError: " ++ e) := by
  refine ⟨rfl, ?_, ?_, rfl⟩
  · unfold generate_note_endpoint
    rw [hbody]
  · have hprep : add_note_prepare canAdd2 note = .error e := by
      unfold add_note_prepare
      rw [hopt, if_neg (by simp), hca]
    unfold add_note_endpoint
    rw [hprep]

/-- Witness for C6: a failing deck-name fetch, a failing model-field lookup
in the generate-note body, and a failing duplicate pre-check in add_note. -/
theorem boundary_error_handling_witness :
    test_connection (Except.error "boom")
      = (500, Json.obj [("status", Json.str "error"), ("message", Json.str "boom")])
    ∧ generate_note_endpoint (Except.error "boom") (fun _ => Except.ok [])
        (fun _ => Except.ok true) "D" "M" "L"
      = (500, Json.obj [("error", Json.str "boom")])
    ∧ add_note_endpoint (fun _ => Except.error "boom") (fun _ => Except.ok (some 1))
        { deckName := "D", modelName := "M", fields := [], tags := [], options := none }
      = (500, Json.obj [("error", Json.str "boom")])
    ∧ menu_iteration (Except.error "boom") = some ("\nError: " ++ "boom") :=
  boundary_error_handling "boom" (Except.error "boom") (fun _ => Except.ok [])
    (fun _ => Except.ok true) (fun _ => Except.error "boom") (fun _ => Except.ok (some 1))
    "D" "M" "L"
    { deckName := "D", modelName := "M", fields := [], tags := [], options := none }
    rfl rfl rfl

/-!
## Model instructions persistence (anki_interactive.py lines 278–289)
-/

/-- The filesystem as a map from path to the JSON value stored in the file.
`json.dump` / `json.load` are modelled as storing and retrieving the JSON
value itself: Python's json module round-trips every JSON-serializable
value, so the file content is represented post-parse. -/
abbrev FileSys := List (String × Json)

/-- `save_model_instructions` (anki_interactive.py lines 286–289): write the
instructions mapping to `model_instructions.json`. -/
def save_model_instructions (instructions : Json) (fs : FileSys) : FileSys :=
  dictSet fs "model_instructions.json" instructions

/-- `load_model_instructions` (anki_interactive.py lines 278–284): parse
`model_instructions.json` when the file exists, `{}` otherwise. -/
def load_model_instructions (fs : FileSys) : Json :=
  match dictGet? fs "model_instructions.json" with
  | some j => j
  | none => Json.obj []

/-- C8: for every mapping m from model names to instruction values (every
such mapping is a JSON-serializable object), calling
`save_model_instructions m` and then `load_model_instructions` returns a
mapping equal to m, in any starting filesystem state. -/
theorem model_instructions_roundtrip (m : List (String × Json)) (fs : FileSys) :
    load_model_instructions (save_model_instructions (Json.obj m) fs) = Json.obj m := by
  unfold load_model_instructions save_model_instructions
  rw [dictGet?_dictSet_self]
